import Mathlib

/-!
Verification of the device-event-driven connection broadcaster in
`src/snapbox/server.py` (class `SnapBoxServer`).

The stateful Python methods are embedded as pure Lean functions by explicit
state passing: a method that mutates `self` and performs sends is a function
`ServerState → ... → ServerState × List Op`, where `Op` is the trace of
observable effects (a `camera.load()` refresh, entry into the broadcast
method, and each `websocket.write_message(wire)` call) in execution order.
-/

namespace SnapBox

/-- Subscriber handles (websocket objects) are opaque identities compared
with Python object equality; we model them as natural numbers. -/
abbrev WS := Nat

/-- A udev device event as received by `usb_device_event`: the fields of the
pyudev `Device` object that the handler reads. -/
structure Device where
  action : String
  device_type : String
  device_path : String
deriving DecidableEq, Repr

/-- The guard of `usb_device_event` (server.py line 87):
`device.action in ["add", "remove"] and device.device_type == "usb_interface"`. -/
def qualifies (d : Device) : Bool :=
  (["add", "remove"].contains d.action) && (d.device_type == "usb_interface")

/-- Modelled from the spec: `lib.camera.Camera` is not under `src/` (only its
caller `server.py` is). Per spec section 4.2 (Device State), `refresh`
re-probes the device enumeration and atomically updates `connected`, and
`get` reads the last-known value. We carry only the `connected` flag the
server reads. -/
structure Camera where
  connected : Bool
deriving DecidableEq, Repr

/-- Modelled from the spec: `Camera.load()` re-probes the hardware and stores
the result. The probe outcome is an external input, passed as `probe`. -/
def Camera.load (probe : Bool) : Camera :=
  ⟨probe⟩

/-- Modelled from the spec: `Camera.get_connect()` reads the last-known
connectivity value. -/
def Camera.get_connect (c : Camera) : Bool :=
  c.connected

/-- The message dict built by `usb_device_event` and
`send_init_event_to_websocket`: keys in insertion order
`event`, `type`, `mutation`, `value`. -/
structure Msg where
  event : String
  type : String
  mutation : String
  value : Bool
deriving DecidableEq, Repr

/-- Python `json.dumps` on a `bool`. -/
def pyBool (b : Bool) : String :=
  if b then "true" else "false"

/-- Python `json.dumps` on the fixed-shape message dict: insertion-ordered
keys, default separators (comma-space and colon-space). -/
def jsonDumps (m : Msg) : String :=
  "\x7b\"event\": \"" ++ m.event ++ "\", \"type\": \"" ++ m.type ++
    "\", \"mutation\": \"" ++ m.mutation ++ "\", \"value\": " ++
    pyBool m.value ++ "\x7d"

/-- The exact wire string of the spec's schema for a given boolean value. -/
def schemaStr (b : Bool) : String :=
  "\x7b\"event\": \"update\", \"type\": \"state\", \"mutation\": \"camera/setIsConnected\", \"value\": " ++
    pyBool b ++ "\x7d"

/-- Observable effects, in execution order: `load` is `self.camera.load()`,
`broadcastCall m` marks entry into `send_msg_to_websockets(m)`, and
`write_message w wire` is `w.write_message(wire)`. -/
inductive Op where
  | load
  | broadcastCall (m : Msg)
  | write_message (w : WS) (wire : String)
deriving DecidableEq, Repr

/-- The mutable server state the claims touch: `self.camera` and
`self.websockets` (a Python list, insertion ordered). -/
structure ServerState where
  camera : Camera
  websockets : List WS
deriving DecidableEq, Repr

/-- Embeds `send_msg_to_websockets` (server.py lines 120-122):
`for websocket in self.websockets: websocket.write_message(json.dumps(msg_json))`.
The state is read only, so the function returns just the effect trace; the
leading `broadcastCall` op records the invocation itself. -/
def send_msg_to_websockets (s : ServerState) (msg_json : Msg) : List Op :=
  Op.broadcastCall msg_json ::
    s.websockets.map (fun websocket => Op.write_message websocket (jsonDumps msg_json))

/-- Embeds `usb_device_event` (server.py lines 86-97): if the event
qualifies, refresh the camera (`self.camera.load()`, probe outcome `probe`)
and broadcast the message whose `value` is `self.camera.get_connect()` read
after the load; otherwise do nothing. -/
def usb_device_event (s : ServerState) (device : Device) (probe : Bool) :
    ServerState × List Op :=
  if qualifies device then
    let s2 : ServerState := { s with camera := Camera.load probe }
    let msg : Msg := ⟨"update", "state", "camera/setIsConnected", s2.camera.get_connect⟩
    (s2, Op.load :: send_msg_to_websockets s2 msg)
  else
    (s, [])

/-- Embeds `send_init_event_to_websocket` (server.py lines 108-118): build the
one-element `events` list with `value = self.camera.get_connect()` and write
each serialized event to the given websocket only. -/
def send_init_event_to_websocket (s : ServerState) (websocket : WS) : List Op :=
  let events : List Msg :=
    [⟨"update", "state", "camera/setIsConnected", s.camera.get_connect⟩]
  events.map (fun event => Op.write_message websocket (jsonDumps event))

/-- Embeds `add_websocket` (server.py lines 99-102): if the websocket is not
in `self.websockets`, append it, then send the init event to it (reading the
state after the append). -/
def add_websocket (s : ServerState) (websocket : WS) : ServerState × List Op :=
  if websocket ∈ s.websockets then
    (s, [])
  else
    let s2 : ServerState := { s with websockets := s.websockets ++ [websocket] }
    (s2, send_init_event_to_websocket s2 websocket)

/-- Python `list.remove(x)`: deletes the first occurrence of `x`. -/
def removeFirst (xs : List WS) (w : WS) : List WS :=
  match xs with
  | [] => []
  | x :: rest => if x = w then rest else x :: removeFirst rest w

/-- Embeds `remove_websocket` (server.py lines 104-106): if present, remove
the first occurrence from `self.websockets`; no message is sent. -/
def remove_websocket (s : ServerState) (websocket : WS) : ServerState :=
  if websocket ∈ s.websockets then
    { s with websockets := removeFirst s.websockets websocket }
  else
    s

/-- Embeds `send_msg_to_websockets` when `write_message` may raise
(`fails w = true` means the send to `w` raises, e.g. a closed connection).
The loop body has no try/except, so the first raising call aborts the loop
and the exception propagates. Result: the subscribers actually delivered to,
in order, and whether an exception escaped the method. -/
def send_msg_fallible (fails : WS → Bool) : List WS → List WS × Bool
  | [] => ([], false)
  | w :: rest =>
    if fails w then
      ([], true)
    else
      let r := send_msg_fallible fails rest
      (w :: r.1, r.2)

/-- Model of the listener side effects of `udev_init` (server.py lines
78-84): each call constructs a fresh `MonitorObserver` and calls `start()`
on it; the previously started observer (if any) is not stopped, only the
`self.observer_usb` reference is overwritten, so the old observer thread
keeps delivering callbacks. We track the number of observers that have been
started and never stopped. -/
structure MonitorState where
  activeObservers : Nat
deriving DecidableEq, Repr

/-- Embeds `udev_init`: start one more observer. -/
def udev_init (m : MonitorState) : MonitorState :=
  ⟨m.activeObservers + 1⟩

/-- Registry calls a client of the server can interleave: `add w` is
`add_websocket(w)`, `remove w` is `remove_websocket(w)`, `broadcast` is
`send_msg_to_websockets(...)`. -/
inductive RegOp where
  | add (w : WS)
  | remove (w : WS)
  | broadcast
deriving DecidableEq, Repr

/-- Membership effect of one registry call on the server state, via the
embedded source functions; `send_msg_to_websockets` only reads state. -/
def serverStep (s : ServerState) : RegOp → ServerState
  | RegOp.add w => (add_websocket s w).1
  | RegOp.remove w => remove_websocket s w
  | RegOp.broadcast => s

/-- The set semantics the spec prescribes for the same calls: add is set
insert, remove is set delete, broadcast changes nothing. -/
def setStep (s : Finset WS) : RegOp → Finset WS
  | RegOp.add w => insert w s
  | RegOp.remove w => s.erase w
  | RegOp.broadcast => s

/-- The initial server state: `self.websockets = list()` in `__init__`. -/
def initServer (c : Camera) : ServerState :=
  ⟨c, []⟩

/-- The `write_message` calls of a trace: pairs (websocket, wire string) in
delivery order. -/
def writes (t : List Op) : List (WS × String) :=
  t.filterMap (fun op =>
    match op with
    | Op.write_message w wire => some (w, wire)
    | _ => none)

/-- The `value` fields of the broadcast invocations of a trace. -/
def broadcastValues (t : List Op) : List Bool :=
  t.filterMap (fun op =>
    match op with
    | Op.broadcastCall m => some m.value
    | _ => none)

/-- Number of broadcast invocations in a trace. -/
def broadcastCount (t : List Op) : Nat :=
  (broadcastValues t).length

/-! ### Helper lemmas (shared) -/

lemma writes_map_write (l : List WS) (str : String) :
    writes (l.map fun w => Op.write_message w str) = l.map fun w => (w, str) := by
  simp only [writes, List.filterMap_map]
  rw [List.filterMap_eq_map_iff_forall_eq_some]
  intro a _
  rfl

lemma broadcastValues_map_write (l : List WS) (str : String) :
    broadcastValues (l.map fun w => Op.write_message w str) = [] := by
  induction l with
  | nil => rfl
  | cons x rest ih =>
    simp only [broadcastValues] at ih
    simp [broadcastValues, List.filterMap_cons, ih]

lemma broadcastValues_usb_qualifying (s : ServerState) (d : Device) (p : Bool)
    (hq : qualifies d = true) :
    broadcastValues (usb_device_event s d p).2 = [p] := by
  simp [usb_device_event, hq, send_msg_to_websockets, broadcastValues,
    List.filterMap_cons, Camera.load, Camera.get_connect]

lemma usb_camera_after (s : ServerState) (d : Device) (p : Bool)
    (hq : qualifies d = true) :
    (usb_device_event s d p).1.camera = ⟨p⟩ := by
  simp [usb_device_event, hq, Camera.load]

lemma jsonDumps_schema (b : Bool) :
    jsonDumps ⟨"update", "state", "camera/setIsConnected", b⟩ = schemaStr b := by
  cases b <;> rfl

lemma mem_of_mem_removeFirst {l : List WS} {w a : WS} (h : a ∈ removeFirst l w) :
    a ∈ l := by
  induction l with
  | nil => simp [removeFirst] at h
  | cons x rest ih =>
    by_cases hx : x = w
    · simp only [removeFirst, if_pos hx] at h
      exact List.mem_cons_of_mem x h
    · simp only [removeFirst, if_neg hx, List.mem_cons] at h
      rcases h with h | h
      · exact h ▸ List.mem_cons_self x rest
      · exact List.mem_cons_of_mem x (ih h)

lemma nodup_removeFirst {l : List WS} (w : WS) (h : l.Nodup) :
    (removeFirst l w).Nodup := by
  induction l with
  | nil => simp [removeFirst]
  | cons x rest ih =>
    rw [List.nodup_cons] at h
    by_cases hx : x = w
    · simpa [removeFirst, hx] using h.2
    · rw [removeFirst, if_neg hx, List.nodup_cons]
      exact ⟨fun hm => h.1 (mem_of_mem_removeFirst hm), ih h.2⟩

lemma toFinset_removeFirst {l : List WS} (w : WS) (h : l.Nodup) :
    (removeFirst l w).toFinset = l.toFinset.erase w := by
  induction l with
  | nil => simp [removeFirst]
  | cons x rest ih =>
    rw [List.nodup_cons] at h
    by_cases hx : x = w
    · subst hx
      have hw : x ∉ rest.toFinset := by simpa using h.1
      rw [removeFirst, if_pos rfl, List.toFinset_cons, Finset.erase_insert hw]
    · rw [removeFirst, if_neg hx, List.toFinset_cons, List.toFinset_cons,
        ih h.2, Finset.erase_insert_of_ne hx]

lemma add_websocket_state (s : ServerState) (w : WS) :
    (add_websocket s w).1.websockets =
      if w ∈ s.websockets then s.websockets else s.websockets ++ [w] := by
  by_cases h : w ∈ s.websockets <;> simp [add_websocket, h]

lemma serverStep_nodup (s : ServerState) (op : RegOp)
    (h : s.websockets.Nodup) : (serverStep s op).websockets.Nodup := by
  cases op with
  | add w =>
    by_cases hw : w ∈ s.websockets
    · simpa [serverStep, add_websocket, hw] using h
    · simp [serverStep, add_websocket, hw, List.nodup_append, h]
  | remove w =>
    by_cases hw : w ∈ s.websockets
    · simpa [serverStep, remove_websocket, hw] using nodup_removeFirst w h
    · simpa [serverStep, remove_websocket, hw] using h
  | broadcast => exact h

lemma serverStep_toFinset (s : ServerState) (op : RegOp)
    (h : s.websockets.Nodup) :
    (serverStep s op).websockets.toFinset = setStep s.websockets.toFinset op := by
  cases op with
  | add w =>
    by_cases hw : w ∈ s.websockets
    · have : w ∈ s.websockets.toFinset := by simpa using hw
      simp [serverStep, add_websocket, hw, setStep, Finset.insert_eq_self.mpr this]
    · simp [serverStep, add_websocket, hw, setStep, List.toFinset_append,
        Finset.union_comm, Finset.insert_eq]
  | remove w =>
    by_cases hw : w ∈ s.websockets
    · simp [serverStep, remove_websocket, hw, setStep, toFinset_removeFirst w h]
    · have : w ∉ s.websockets.toFinset := by simpa using hw
      simp [serverStep, remove_websocket, hw, setStep,
        Finset.erase_eq_of_not_mem this]
  | broadcast => rfl

lemma foldl_reg_invariant (ops : List RegOp) :
    ∀ s : ServerState, s.websockets.Nodup →
      (ops.foldl serverStep s).websockets.Nodup ∧
      (ops.foldl serverStep s).websockets.toFinset =
        ops.foldl setStep s.websockets.toFinset := by
  induction ops with
  | nil => intro s h; exact ⟨h, rfl⟩
  | cons op rest ih =>
    intro s h
    have h1 := serverStep_nodup s op h
    have h2 := serverStep_toFinset s op h
    have h3 := ih (serverStep s op) h1
    refine ⟨h3.1, ?_⟩
    rw [List.foldl_cons, List.foldl_cons, h3.2, h2]

lemma usb_trace_qualifying (s : ServerState) (d : Device) (p : Bool)
    (hq : qualifies d = true) :
    (usb_device_event s d p).2 =
      Op.load :: Op.broadcastCall ⟨"update", "state", "camera/setIsConnected", p⟩ ::
        s.websockets.map (fun w => Op.write_message w (schemaStr p)) := by
  simp [usb_device_event, hq, send_msg_to_websockets, Camera.load,
    Camera.get_connect, jsonDumps_schema]

lemma writes_send_msg (s : ServerState) (msg : Msg) :
    writes (send_msg_to_websockets s msg) =
      s.websockets.map fun w => (w, jsonDumps msg) :=
  writes_map_write s.websockets (jsonDumps msg)

lemma count_pair_map (l : List WS) (str : String) (w : WS) (h : l.Nodup) :
    (l.map fun x => (x, str)).count (w, str) = if w ∈ l then 1 else 0 := by
  induction l with
  | nil => simp
  | cons x rest ih =>
    rw [List.nodup_cons] at h
    have ihr := ih h.2
    by_cases hx : x = w
    · subst hx
      simp [List.count_cons, ihr, h.1]
    · simp [List.count_cons, ihr, hx, Ne.symm hx]

/-! ### Claim theorems -/

/-- C1: for every device event whose action is "add" or "remove" and whose
device_type is "usb_interface", `usb_device_event` performs exactly one
broadcast, and the broadcast message's `value` equals the device-connected
state as refreshed by that event (the state read after `camera.load()`
returns), never a pre-refresh value. -/
theorem usb_event_single_broadcast_refreshed_value (s : ServerState)
    (d : Device) (p : Bool) (hq : qualifies d = true) :
    broadcastCount (usb_device_event s d p).2 = 1 ∧
    broadcastValues (usb_device_event s d p).2 =
      [(usb_device_event s d p).1.camera.get_connect] ∧
    (usb_device_event s d p).1.camera.get_connect = p := by
  have hb := broadcastValues_usb_qualifying s d p hq
  have hc := usb_camera_after s d p hq
  refine ⟨?_, ?_, ?_⟩
  · rw [broadcastCount, hb]; rfl
  · rw [hb, hc]; rfl
  · rw [hc]; rfl

theorem usb_event_single_broadcast_refreshed_value_witness :
    qualifies ⟨"add", "usb_interface", "path0"⟩ = true ∧
    (broadcastCount
        (usb_device_event (initServer ⟨false⟩) ⟨"add", "usb_interface", "path0"⟩ true).2 = 1 ∧
      broadcastValues
        (usb_device_event (initServer ⟨false⟩) ⟨"add", "usb_interface", "path0"⟩ true).2 =
        [(usb_device_event (initServer ⟨false⟩) ⟨"add", "usb_interface", "path0"⟩
            true).1.camera.get_connect] ∧
      (usb_device_event (initServer ⟨false⟩) ⟨"add", "usb_interface", "path0"⟩
          true).1.camera.get_connect = true) :=
  ⟨by rfl, usb_event_single_broadcast_refreshed_value (initServer ⟨false⟩)
    ⟨"add", "usb_interface", "path0"⟩ true (by rfl)⟩

/-- C5: for every non-qualifying device event (action not in add or remove,
or device_type not "usb_interface"), `usb_device_event` has no side effect:
no refresh, no message, state unchanged. -/
theorem usb_event_nonqualifying_no_effect (s : ServerState) (d : Device)
    (p : Bool) (h : qualifies d = false) :
    usb_device_event s d p = (s, []) := by
  simp [usb_device_event, h]

theorem usb_event_nonqualifying_no_effect_witness :
    qualifies ⟨"change", "usb_interface", "path1"⟩ = false ∧
    usb_device_event (initServer ⟨true⟩) ⟨"change", "usb_interface", "path1"⟩ false =
      (initServer ⟨true⟩, []) :=
  ⟨by rfl, usb_event_nonqualifying_no_effect (initServer ⟨true⟩)
    ⟨"change", "usb_interface", "path1"⟩ false (by rfl)⟩

/-- C9: for a subscriber already present in the registry, `add_websocket` is
a complete no-op: no message is sent (in particular no second init message)
and the state is unchanged. -/
theorem add_websocket_duplicate_noop (s : ServerState) (w : WS)
    (h : w ∈ s.websockets) :
    add_websocket s w = (s, []) := by
  simp [add_websocket, h]

theorem add_websocket_duplicate_noop_witness :
    (5 : WS) ∈ (ServerState.mk ⟨false⟩ [5]).websockets ∧
    add_websocket (ServerState.mk ⟨false⟩ [5]) 5 = (ServerState.mk ⟨false⟩ [5], []) :=
  ⟨by decide, add_websocket_duplicate_noop (ServerState.mk ⟨false⟩ [5]) 5 (by decide)⟩

/-- C3: for a subscriber not currently registered, `add_websocket` appends
it to the registry and then sends exactly one initialization message
directly to that subscriber only (no broadcast), whose `value` equals the
device state read at subscription time (`self.camera.get_connect()`). -/
theorem add_websocket_new_single_init (s : ServerState) (w : WS)
    (h : w ∉ s.websockets) :
    (add_websocket s w).1.websockets = s.websockets ++ [w] ∧
    (add_websocket s w).1.camera = s.camera ∧
    (add_websocket s w).2 =
      [Op.write_message w
        (jsonDumps ⟨"update", "state", "camera/setIsConnected", s.camera.get_connect⟩)] ∧
    broadcastCount (add_websocket s w).2 = 0 := by
  refine ⟨?_, ?_, ?_, ?_⟩ <;>
    simp [add_websocket, h, send_init_event_to_websocket, broadcastCount,
      broadcastValues]

theorem add_websocket_new_single_init_witness :
    (7 : WS) ∉ (initServer ⟨true⟩).websockets ∧
    ((add_websocket (initServer ⟨true⟩) 7).1.websockets =
        (initServer ⟨true⟩).websockets ++ [7] ∧
      (add_websocket (initServer ⟨true⟩) 7).1.camera = (initServer ⟨true⟩).camera ∧
      (add_websocket (initServer ⟨true⟩) 7).2 =
        [Op.write_message 7
          (jsonDumps ⟨"update", "state", "camera/setIsConnected",
            (initServer ⟨true⟩).camera.get_connect⟩)] ∧
      broadcastCount (add_websocket (initServer ⟨true⟩) 7).2 = 0) :=
  ⟨by decide, add_websocket_new_single_init (initServer ⟨true⟩) 7 (by decide)⟩

/-- C2 counterexample: with registry [1, 2, 3] and the send to subscriber 2
raising, the broadcast does NOT deliver to the other two subscribers:
subscriber 3 receives nothing because the uncaught exception aborts the
loop. -/
theorem send_failure_aborts_broadcast_cex :
    (send_msg_fallible (fun w => w == 2) [1, 2, 3]).1 = [1] ∧
    (3 : WS) ∉ (send_msg_fallible (fun w => w == 2) [1, 2, 3]).1 ∧
    (send_msg_fallible (fun w => w == 2) [1, 2, 3]).2 = true := by
  decide

/-- C2 (amended): a failing send during a broadcast is not isolated: the
subscribers strictly before the first failing one (in registration order)
receive the message, the failing subscriber and every later one receive
nothing, and the exception escapes `send_msg_to_websockets`. -/
theorem send_msg_fallible_delivers_prefix (fails : WS → Bool) (subs : List WS) :
    send_msg_fallible fails subs =
      (subs.takeWhile (fun w => !(fails w)), subs.any fails) := by
  induction subs with
  | nil => rfl
  | cons w rest ih =>
    by_cases h : fails w
    · simp [send_msg_fallible, h, List.takeWhile_cons, List.any_cons]
    · simp [send_msg_fallible, h, ih, List.takeWhile_cons, List.any_cons]

/-- C8 counterexample: calling `udev_init` twice starts two monitor
observers (the first is never stopped), so the operation is not idempotent:
after two calls more than one active observer delivers callbacks. -/
theorem udev_init_twice_two_listeners_cex :
    (udev_init (udev_init ⟨0⟩)).activeObservers = 2 ∧
    ¬ (udev_init (udev_init ⟨0⟩)).activeObservers ≤ 1 := by
  decide

/-- C8 (amended): `udev_init` is not idempotent: each call constructs and
starts one more observer and never stops the previous one, so after n calls
n observers are active (the server calls it exactly once, in `__init__`). -/
theorem udev_init_starts_observer_per_call (n : Nat) (m : MonitorState) :
    (udev_init^[n] m).activeObservers = m.activeObservers + n := by
  induction n generalizing m with
  | zero => simp
  | succ k ih =>
    rw [Function.iterate_succ_apply, ih]
    simp [udev_init]
    omega

/-- C4: for every sequence of add/remove/broadcast calls starting from the
empty registry, the final membership equals the result of folding the spec's
set semantics (add = insert, remove = delete) over the calls in order; add
of a present subscriber and remove of an absent one are no-ops, broadcast
never changes state, and no subscriber appears twice at any point of the
sequence. -/
theorem registry_refines_set_semantics (ops : List RegOp) (c : Camera) :
    ((ops.foldl serverStep (initServer c)).websockets).toFinset =
      ops.foldl setStep ∅ ∧
    (∀ pre suf, ops = pre ++ suf →
      ((pre.foldl serverStep (initServer c)).websockets).Nodup) ∧
    (∀ s w, w ∈ s.websockets → add_websocket s w = (s, [])) ∧
    (∀ s w, w ∉ s.websockets → remove_websocket s w = s) ∧
    (∀ s : ServerState, serverStep s RegOp.broadcast = s) := by
  have hinit : (initServer c).websockets.Nodup := List.nodup_nil
  refine ⟨?_, ?_, ?_, ?_, ?_⟩
  · have h := (foldl_reg_invariant ops (initServer c) hinit).2
    simpa [initServer] using h
  · intro pre suf _
    exact (foldl_reg_invariant pre (initServer c) hinit).1
  · intro s w hw
    simp [add_websocket, hw]
  · intro s w hw
    simp [remove_websocket, hw]
  · intro s
    rfl

theorem registry_refines_set_semantics_witness :
    (([RegOp.add 1, RegOp.add 2, RegOp.add 1, RegOp.broadcast,
        RegOp.remove 2].foldl serverStep (initServer ⟨false⟩)).websockets).toFinset =
      [RegOp.add 1, RegOp.add 2, RegOp.add 1, RegOp.broadcast,
        RegOp.remove 2].foldl setStep ∅ ∧
    (([RegOp.add 1, RegOp.add 2].foldl serverStep (initServer ⟨false⟩)).websockets).Nodup ∧
    add_websocket (ServerState.mk ⟨true⟩ [4]) 4 = (ServerState.mk ⟨true⟩ [4], []) ∧
    remove_websocket (ServerState.mk ⟨true⟩ [4]) 9 = ServerState.mk ⟨true⟩ [4] :=
  ⟨(registry_refines_set_semantics
      [RegOp.add 1, RegOp.add 2, RegOp.add 1, RegOp.broadcast, RegOp.remove 2] ⟨false⟩).1,
   (registry_refines_set_semantics
      [RegOp.add 1, RegOp.add 2, RegOp.add 1, RegOp.broadcast, RegOp.remove 2] ⟨false⟩).2.1
      [RegOp.add 1, RegOp.add 2]
      [RegOp.add 1, RegOp.broadcast, RegOp.remove 2] rfl,
   (registry_refines_set_semantics [] ⟨false⟩).2.2.1
      (ServerState.mk ⟨true⟩ [4]) 4 (by decide),
   (registry_refines_set_semantics [] ⟨false⟩).2.2.2.1
      (ServerState.mk ⟨true⟩ [4]) 9 (by decide)⟩

/-- C6: every message the core sends — each `write_message` performed by a
qualifying device event's broadcast and by the subscribe-time init path, and
the message handed to the broadcast — carries exactly the wire schema with
keys event/type/mutation/value, constant values "update"/"state"/
"camera/setIsConnected", and a boolean value: its serialization is
`schemaStr true` or `schemaStr false`. -/
theorem sent_messages_wire_schema (s : ServerState) (d : Device) (p : Bool)
    (ws : WS) :
    (∀ w wire, (w, wire) ∈ writes (usb_device_event s d p).2 →
      wire = schemaStr true ∨ wire = schemaStr false) ∧
    (∀ m, Op.broadcastCall m ∈ (usb_device_event s d p).2 →
      m.event = "update" ∧ m.type = "state" ∧
        m.mutation = "camera/setIsConnected" ∧ jsonDumps m = schemaStr m.value) ∧
    (∀ w wire, (w, wire) ∈ writes (add_websocket s ws).2 →
      wire = schemaStr true ∨ wire = schemaStr false) := by
  refine ⟨?_, ?_, ?_⟩
  · intro w wire hmem
    by_cases hq : qualifies d = true
    · rw [usb_trace_qualifying s d p hq] at hmem
      have he : writes (Op.load ::
          Op.broadcastCall ⟨"update", "state", "camera/setIsConnected", p⟩ ::
          s.websockets.map (fun w => Op.write_message w (schemaStr p))) =
          s.websockets.map (fun w => (w, schemaStr p)) :=
        writes_map_write s.websockets (schemaStr p)
      rw [he] at hmem
      obtain ⟨a, _, hpair⟩ := List.mem_map.mp hmem
      cases hpair
      cases p
      · right; rfl
      · left; rfl
    · rw [Bool.not_eq_true] at hq
      rw [usb_event_nonqualifying_no_effect s d p hq] at hmem
      simp [writes] at hmem
  · intro m hmem
    by_cases hq : qualifies d = true
    · rw [usb_trace_qualifying s d p hq] at hmem
      simp only [List.mem_cons, List.mem_map] at hmem
      rcases hmem with h | h | ⟨a, _, h⟩
      · simp at h
      · simp only [Op.broadcastCall.injEq] at h
        subst h
        exact ⟨rfl, rfl, rfl, jsonDumps_schema p⟩
      · simp at h
    · rw [Bool.not_eq_true] at hq
      rw [usb_event_nonqualifying_no_effect s d p hq] at hmem
      simp at hmem
  · intro w wire hmem
    by_cases hw : ws ∈ s.websockets
    · rw [add_websocket_duplicate_noop s ws hw] at hmem
      simp [writes] at hmem
    · have ht : (add_websocket s ws).2 =
          [Op.write_message ws (schemaStr s.camera.get_connect)] := by
        simp [add_websocket, hw, send_init_event_to_websocket, jsonDumps_schema]
      rw [ht] at hmem
      simp only [writes, List.filterMap_cons, List.filterMap_nil,
        List.mem_singleton, Prod.mk.injEq] at hmem
      cases hb : s.camera.get_connect
      · right; rw [hmem.2, hb]
      · left; rw [hmem.2, hb]

theorem sent_messages_wire_schema_witness :
    ((1 : WS), schemaStr true) ∈
      writes (usb_device_event (ServerState.mk ⟨false⟩ [1])
        ⟨"add", "usb_interface", "path2"⟩ true).2 ∧
    (schemaStr true = schemaStr true ∨ schemaStr true = schemaStr false) :=
  ⟨by decide,
   (sent_messages_wire_schema (ServerState.mk ⟨false⟩ [1])
      ⟨"add", "usb_interface", "path2"⟩ true 0).1 1 (schemaStr true) (by decide)⟩

/-- C10: a broadcast writes the serialized message exactly once to each
registered subscriber, in registration (insertion) order; with an empty
registry it writes nothing and completes, and a qualifying device event
still performs the refresh (`Op.load`) even with zero subscribers. -/
theorem broadcast_delivers_in_order (s : ServerState) (msg : Msg) (d : Device)
    (p : Bool) (hnd : s.websockets.Nodup) (hq : qualifies d = true) :
    writes (send_msg_to_websockets s msg) =
      s.websockets.map (fun w => (w, jsonDumps msg)) ∧
    (∀ w, (writes (send_msg_to_websockets s msg)).count (w, jsonDumps msg) =
      if w ∈ s.websockets then 1 else 0) ∧
    (s.websockets = [] → writes (send_msg_to_websockets s msg) = []) ∧
    (s.websockets = [] → (usb_device_event s d p).2 =
      [Op.load, Op.broadcastCall ⟨"update", "state", "camera/setIsConnected", p⟩]) := by
  refine ⟨writes_send_msg s msg, ?_, ?_, ?_⟩
  · intro w
    rw [writes_send_msg s msg]
    exact count_pair_map s.websockets (jsonDumps msg) w hnd
  · intro h
    rw [writes_send_msg s msg, h]
    rfl
  · intro h
    rw [usb_trace_qualifying s d p hq, h]
    rfl

theorem broadcast_delivers_in_order_witness :
    List.Nodup (ServerState.mk ⟨true⟩ [3, 5]).websockets ∧
    qualifies ⟨"remove", "usb_interface", "path3"⟩ = true ∧
    (writes (send_msg_to_websockets (ServerState.mk ⟨true⟩ [3, 5])
        ⟨"update", "state", "camera/setIsConnected", true⟩) =
      (ServerState.mk ⟨true⟩ [3, 5]).websockets.map
        (fun w => (w, jsonDumps ⟨"update", "state", "camera/setIsConnected", true⟩)) ∧
     (writes (send_msg_to_websockets (ServerState.mk ⟨true⟩ [3, 5])
        ⟨"update", "state", "camera/setIsConnected", true⟩)).count
        (3, jsonDumps ⟨"update", "state", "camera/setIsConnected", true⟩) =
      if (3 : WS) ∈ (ServerState.mk ⟨true⟩ [3, 5]).websockets then 1 else 0) :=
  ⟨by decide, by rfl,
   (broadcast_delivers_in_order (ServerState.mk ⟨true⟩ [3, 5])
      ⟨"update", "state", "camera/setIsConnected", true⟩
      ⟨"remove", "usb_interface", "path3"⟩ true (by decide) (by rfl)).1,
   (broadcast_delivers_in_order (ServerState.mk ⟨true⟩ [3, 5])
      ⟨"update", "state", "camera/setIsConnected", true⟩
      ⟨"remove", "usb_interface", "path3"⟩ true (by decide) (by rfl)).2.1 3⟩

end SnapBox
